import Mathlib

/-!
Verification development for the contacts-management REST backend
(goit-pythonweb-hw-12): a shallow embedding of the authentication and
session-caching core (`src/services/auth.py`, `src/api/auth.py`,
`src/services/users.py`, `src/repository/users.py`, `src/database/models.py`)
together with theorems settling the specification claims about it.

Modelling conventions:
* JWTs are modelled symbolically: a token is either a well-signed envelope
  carrying its claims and the key it was signed with, or a malformed string.
  `jwtDecode` succeeds exactly when the presented key matches the signing key
  and the `exp` claim (when present, as in python-jose) has not passed.
* The relational store is a list of `User` rows; SQLAlchemy's
  `scalar_one_or_none` over a unique column is modelled by `List.find?`
  (uniqueness of `username`/`email` is a schema constraint).
* Redis is an association list from keys to the (JSON-roundtripped) cached
  snapshot, with the TTL recorded at each write.
* Python `HTTPException(status, detail)` and uncaught exceptions are the
  non-`ok` constructors of `PyOutcome`.
* bcrypt itself is out of scope (spec §1): hashing is threaded through as an
  opaque function parameter, and passlib's hash-identification step is
  modelled explicitly where a claim depends on it.
-/

namespace HW12

/-- `UserRole` enum of `src/database/models.py` (values "user" / "admin"). -/
inductive UserRole where
  | user
  | admin
deriving DecidableEq, Repr

/-- Python `UserRole(value)` coercion: succeeds on the two enum values,
raises `ValueError` (modelled as `none`) on any other string. -/
def UserRole.ofString? : String → Option UserRole
  | "user" => some .user
  | "admin" => some .admin
  | _ => none

/-- `UserRole.value`: the string value of a role enum member. -/
def UserRole.value : UserRole → String
  | .user => "user"
  | .admin => "admin"

/-- The JWT claim fields used by this codebase: `sub`, `token_type`, `scope`,
`iat`, `exp`. A field absent from the payload dict is `none`; python-jose
only enforces `exp` when the claim is present. -/
structure Claims where
  sub : Option String := none
  token_type : Option String := none
  scope : Option String := none
  iat : Option Nat := none
  exp : Option Nat := none
deriving DecidableEq, Repr

/-- A JWT as presented to the API: either a well-signed envelope (the key it
was signed with plus its payload) or a malformed/forged string that no key
verifies. -/
inductive Token where
  | signed (secret : String) (claims : Claims)
  | malformed (raw : String)
deriving DecidableEq, Repr

/-- python-jose expiry check: a payload is unexpired when `exp` is absent or
has not passed (leeway 0). -/
def claimsLive (c : Claims) (now : Nat) : Bool :=
  match c.exp with
  | none => true
  | some e => decide (now ≤ e)

/-- `jose.jwt.decode(token, key, algorithms=[...])`: returns the payload when
the signature verifies under `key` and the token is unexpired; otherwise
raises `JWTError` (modelled as `none`). -/
def jwtDecode (tok : Token) (key : String) (now : Nat) : Option Claims :=
  match tok with
  | .malformed _ => none
  | .signed secret claims =>
      if secret = key ∧ claimsLive claims now then some claims else none

/-- The two signing secrets from `src/config/settings.py` (environment
configuration; distinct by deployment contract, spec §2/§4.2). -/
def JWT_SECRET : String := "env-jwt-secret"

/-- The refresh-token signing secret (`settings.JWT_REFRESH_SECRET`). -/
def JWT_REFRESH_SECRET : String := "env-jwt-refresh-secret"

/-- `settings.JWT_EXPIRATION_SECONDS` default. -/
def JWT_EXPIRATION_SECONDS : Nat := 3600

/-- `settings.JWT_REFRESH_EXPIRATION_MINUTES` default. -/
def JWT_REFRESH_EXPIRATION_MINUTES : Nat := 10080

/-- `create_access_token(data={"sub": sub})` with the default TTL:
payload `{sub, exp = now + JWT_EXPIRATION_SECONDS}`, signed with
`settings.JWT_SECRET`. -/
def create_access_token (sub : String) (now : Nat) : Token :=
  .signed JWT_SECRET { sub := some sub, exp := some (now + JWT_EXPIRATION_SECONDS) }

/-- `create_refresh_token(data={"sub": sub})` with the default TTL:
payload `{sub, token_type: "refresh", exp}`, signed with
`settings.JWT_REFRESH_SECRET`. -/
def create_refresh_token (sub : String) (now : Nat) : Token :=
  .signed JWT_REFRESH_SECRET
    { sub := some sub, token_type := some "refresh"
      exp := some (now + JWT_REFRESH_EXPIRATION_MINUTES * 60) }

/-- `create_email_token(data)`: payload = data ∪ `{iat, exp = now + 7 days}`,
signed with `settings.JWT_SECRET`. The callers pass `{"sub": email}`
(confirmation mail) or `{"sub": email, "scope": "password_reset"}`. -/
def create_email_token (sub : String) (scope : Option String) (now : Nat) : Token :=
  .signed JWT_SECRET
    { sub := some sub, scope := scope, iat := some now, exp := some (now + 7 * 86400) }

/-- The persisted `User` row (`src/database/models.py`): column defaults
`confirmed=False`, `role="user"`, nullable `avatar` and `refresh_token`.
The stored `refresh_token` string is represented by the token value itself
(JWT encoding is injective). -/
structure User where
  id : Nat
  username : String
  email : String
  hashed_password : String
  avatar : Option String := none
  confirmed : Bool := false
  refresh_token : Option Token := none
  role : String := "user"
deriving DecidableEq, Repr

/-- The user table. -/
abbrev DB := List User

/-- `UserRepository.get_user_by_username`: `SELECT ... WHERE username = ...`,
`scalar_one_or_none` (username is a unique column). -/
def get_user_by_username (db : DB) (username : String) : Option User :=
  db.find? (fun u => u.username == username)

/-- `UserRepository.get_user_by_email`: `SELECT ... WHERE email = ...`,
`scalar_one_or_none` (email is a unique column). -/
def get_user_by_email (db : DB) (email : String) : Option User :=
  db.find? (fun u => u.email == email)

/-- ORM-style in-place mutation + commit of the single row returned by a
unique-column lookup: update the first row satisfying `p`. -/
def updateFirst (p : User → Bool) (f : User → User) : DB → DB
  | [] => []
  | u :: rest => if p u then f u :: rest else u :: updateFirst p f rest

/-- Outcome of a request handler: a value, an `HTTPException(status, detail)`,
or an uncaught Python exception (e.g. `ValueError`). -/
inductive PyOutcome (α : Type) where
  | ok (a : α)
  | httpExc (status : Nat) (detail : String)
  | pyError (msg : String)
deriving DecidableEq, Repr

/-- The denormalized user snapshot `user_data` that the code JSON-serializes
into Redis and rebuilds on a hit (`id` stringified, `role` a plain string).
JSON round-trips these fields exactly, so the cache stores the record
itself. -/
structure UserData where
  id : String
  username : String
  email : String
  confirmed : Bool
  role : String
deriving DecidableEq, Repr

/-- Redis contents: association list from key to the stored snapshot and the
TTL (`ex=`) given at the write. An entry being present models "present and
unexpired". -/
abbrev Cache := List (String × UserData × Nat)

/-- `redis.get(key)`: value of the first (most recent) entry for `key`. -/
def cacheGet (cache : Cache) (key : String) : Option UserData :=
  (cache.find? (fun e => e.1 == key)).map (fun e => e.2.1)

/-- `redis.set(key, value, ex=ttl)`: unconditional overwrite. -/
def cacheSet (cache : Cache) (key : String) (v : UserData) (ttl : Nat) : Cache :=
  (key, v, ttl) :: cache.filter (fun e => !(e.1 == key))

/-- The projection of a `User` row to the cached snapshot, as built inline in
`get_current_user` and `login_user`: `id` stringified; `role` is the string
column value (the `isinstance(user.role, UserRole)` branch is dead for the
string-typed column). -/
def project (u : User) : UserData :=
  { id := toString u.id, username := u.username, email := u.email
    confirmed := u.confirmed, role := u.role }

/-- The role slot of the returned `SimpleNamespace`: the cache-hit path stores
a `UserRole` enum member, the cache-miss path stores the raw string. -/
inductive RoleVal where
  | str (s : String)
  | enum (r : UserRole)
deriving DecidableEq, Repr

/-- The resolved principal (`SimpleNamespace(**user_data)`). -/
structure Identity where
  id : String
  username : String
  email : String
  confirmed : Bool
  role : RoleVal
deriving DecidableEq, Repr

/-- Result of `get_current_user` together with its observable effects:
whether persistence was read, and the Redis write performed (key, value,
TTL), if any. -/
structure ResolveOut where
  result : PyOutcome Identity
  dbRead : Bool
  cacheWrite : Option (String × UserData × Nat)
deriving DecidableEq, Repr

/-- `get_current_user(token, db)` (`src/services/auth.py:109-166`):
decode under the access secret (401 on `JWTError` or absent `sub`); consult
Redis at `"user:" + sub`; on a hit rebuild the namespace with
`UserRole(user_data["role"])` and return with no DB read; on a miss load by
username (401 if absent), project, cache with `ex=3600`, return. -/
def get_current_user (tok : Token) (cache : Cache) (db : DB) (now : Nat) : ResolveOut :=
  match jwtDecode tok JWT_SECRET now with
  | none => ⟨.httpExc 401 "Could not validate credentials", false, none⟩
  | some payload =>
    match payload.sub with
    | none => ⟨.httpExc 401 "Could not validate credentials", false, none⟩
    | some username =>
      match cacheGet cache ("user:" ++ username) with
      | some ud =>
        match UserRole.ofString? ud.role with
        | some r =>
            ⟨.ok { id := ud.id, username := ud.username, email := ud.email
                   confirmed := ud.confirmed, role := .enum r }, false, none⟩
        | none => ⟨.pyError "ValueError: invalid UserRole value", false, none⟩
      | none =>
        match get_user_by_username db username with
        | none => ⟨.httpExc 401 "Could not validate credentials", true, none⟩
        | some user =>
          let ud := project user
          ⟨.ok { id := ud.id, username := ud.username, email := ud.email
                 confirmed := ud.confirmed, role := .str ud.role },
           true, some ("user:" ++ username, ud, 3600)⟩

/-- Result of passlib's `CryptContext.verify`: a boolean, or the
`UnknownHashError` it raises when the hash string is not identifiable. -/
inductive PwdVerifyResult where
  | result (b : Bool)
  | unknownHashError
deriving DecidableEq, Repr

/-- A string is identifiable as a bcrypt hash when it opens with bcrypt's
`$2b$` marker. -/
def isBcryptHash (hashed : String) : Bool :=
  match hashed.data with
  | '$' :: '2' :: 'b' :: '$' :: _ => true
  | _ => false

/-- passlib `CryptContext(schemes=["bcrypt"]).verify(plain, hashed)`
(dependency contract, spec §1 treats the primitive as out of scope):
identifies the scheme from the hash string and raises `UnknownHashError`
when the string is not a recognizable bcrypt hash; otherwise compares via
the bcrypt primitive, threaded through as the opaque `check` parameter. -/
def cryptContextVerify (check : String → String → Bool)
    (plain hashed : String) : PwdVerifyResult :=
  if isBcryptHash hashed then .result (check plain hashed) else .unknownHashError

/-- `Hash.verify_password` (`src/services/auth.py:27-38`): returns
`self.pwd_context.verify(plain_password, hashed_password)` with no exception
handling of its own. -/
def verify_password (check : String → String → Bool)
    (plain hashed : String) : PwdVerifyResult :=
  cryptContextVerify check plain hashed

/-- The registration payload `UserCreate` (`src/schemas.py:28-32`):
`role: Optional[str] = "user"` — any string is accepted. -/
structure UserCreate where
  username : String
  email : String
  password : String
  role : Option String := some "user"
deriving DecidableEq, Repr

/-- Fresh autoincrement id for a new row. -/
def nextId (db : DB) : Nat :=
  db.foldr (fun u m => max u.id m) 0 + 1

/-- `UserService.create_user` + `UserRepository.create_user`
(`src/services/users.py:24-43`, `src/repository/users.py:61-85`):
`role = body.role if body.role else "user"` (Python truthiness: `None` and
`""` fall back to the default), then a `User` row with the model defaults
`confirmed=False`, `refresh_token=None`. `body.password` has already been
replaced by its hash at the route. The Gravatar lookup result is the
`avatar` parameter. -/
def service_create_user (body : UserCreate) (avatar : Option String)
    (freshId : Nat) : User :=
  let role := match body.role with
    | none => "user"
    | some "" => "user"
    | some r => r
  { id := freshId, username := body.username, email := body.email
    hashed_password := body.password, avatar := avatar
    confirmed := false, refresh_token := none, role := role }

/-- `POST /register` (`src/api/auth.py:55-98`): 409 when the email or the
username is taken; otherwise hash the payload password (`hashFn` models
`Hash().get_password_hash`, salt included), persist, dispatch the
confirmation mail as a background task. Returns the created user and the
resulting table. -/
def register_user (body : UserCreate) (hashFn : String → String)
    (avatar : Option String) (db : DB) : PyOutcome User × DB :=
  if (get_user_by_email db body.email).isSome then
    (.httpExc 409 "Користувач з таким email вже існує", db)
  else if (get_user_by_username db body.username).isSome then
    (.httpExc 409 "Користувач з таким іменем вже існує", db)
  else
    let newUser := service_create_user
      { body with password := hashFn body.password } avatar (nextId db)
    (.ok newUser, db ++ [newUser])

/-- The token body returned by `/login` and `/refresh-token`. -/
structure TokenResponse where
  access_token : Token
  refresh_token : Token
  token_type : String
deriving DecidableEq, Repr

/-- `POST /login` (`src/api/auth.py:101-157`): 401 on unknown username or
password mismatch; 401 (distinct detail) when unconfirmed; otherwise issue
access + refresh tokens, persist the refresh token on the row, best-effort
cache the snapshot with `ex=3600` (the success path of the `try` block), and
return the bearer pair. `check` models `Hash().verify_password` on the
well-formed stored hash. -/
def login_user (username password : String) (check : String → String → Bool)
    (db : DB) (cache : Cache) (now : Nat) :
    PyOutcome TokenResponse × DB × Cache :=
  match get_user_by_username db username with
  | none => (.httpExc 401 "Неправильний логін або пароль", db, cache)
  | some user =>
    if !check password user.hashed_password then
      (.httpExc 401 "Неправильний логін або пароль", db, cache)
    else if !user.confirmed then
      (.httpExc 401 "Електронна адреса не підтверджена", db, cache)
    else
      let access := create_access_token user.username now
      let refreshTok := create_refresh_token user.username now
      let db' := updateFirst (fun u => u.username == username)
        (fun u => { u with refresh_token := some refreshTok }) db
      let cache' := cacheSet cache ("user:" ++ user.username) (project user) 3600
      (.ok ⟨access, refreshTok, "bearer"⟩, db', cache')

/-- `verify_refresh_token` (`src/services/auth.py:213-245`): decode under the
refresh secret (`JWTError` becomes `HTTPException 401`); return `None` when
`sub` is absent or `token_type != "refresh"`; otherwise the single row whose
username is `sub` and whose stored `refresh_token` equals the presented
token. -/
def verify_refresh_token (tok : Token) (db : DB) (now : Nat) :
    PyOutcome (Option User) :=
  match jwtDecode tok JWT_REFRESH_SECRET now with
  | none => .httpExc 401 "Invalid refresh token"
  | some payload =>
    match payload.sub with
    | none => .ok none
    | some username =>
      if payload.token_type ≠ some "refresh" then .ok none
      else .ok (db.find? (fun u =>
        u.username == username && u.refresh_token == some tok))

/-- `POST /refresh-token` (`src/api/auth.py:160-186`): 401 when verification
returns no user; otherwise a fresh access token together with the *same*
refresh token. -/
def new_token (tok : Token) (db : DB) (now : Nat) : PyOutcome TokenResponse :=
  match verify_refresh_token tok db now with
  | .httpExc s d => .httpExc s d
  | .pyError m => .pyError m
  | .ok none => .httpExc 401 "Invalid or expired refresh token"
  | .ok (some user) => .ok ⟨create_access_token user.username now, tok, "bearer"⟩

/-- `get_email_from_token` (`src/services/auth.py:187-210`): decode under the
access secret and return `payload.get("sub")`; `JWTError` becomes
`HTTPException 422` ("Неправильний токен для перевірки електронної пошти"). -/
def get_email_from_token (tok : Token) (now : Nat) : PyOutcome (Option String) :=
  match jwtDecode tok JWT_SECRET now with
  | some payload => .ok payload.sub
  | none => .httpExc 422 "Неправильний токен для перевірки електронної пошти"

/-- `UserRepository.confirmed_email` (`src/repository/users.py:87-97`): look
the user up by email and set `confirmed = True` (no-op when absent). -/
def repo_confirmed_email (db : DB) (email : String) : DB :=
  updateFirst (fun u => u.email == email) (fun u => { u with confirmed := true }) db

/-- `GET /confirmed_email/{token}` (`src/api/auth.py:189-218`): extract the
subject email (422 propagates from an invalid token); 400 when the subject
is absent (`email is None`) or names no user; no-op success message when
already confirmed; otherwise flip `confirmed` and report success. Returns
the message outcome and the resulting table. -/
def confirmed_email_route (tok : Token) (db : DB) (now : Nat) :
    PyOutcome String × DB :=
  match get_email_from_token tok now with
  | .httpExc s d => (.httpExc s d, db)
  | .pyError m => (.pyError m, db)
  | .ok none => (.httpExc 400 "Invalid or expired token", db)
  | .ok (some email) =>
    match get_user_by_email db email with
    | none => (.httpExc 400 "Verification error", db)
    | some user =>
      if user.confirmed then (.ok "Ваша електронна пошта вже підтверджена", db)
      else (.ok "Електронну пошту підтверджено", repo_confirmed_email db email)

/-- `POST /request_email` (`src/api/auth.py:221-255`): 400 "Verification
error" when the email names no user; no-op message when already confirmed;
otherwise re-dispatch the confirmation mail (background task, invisible in
the response) and return the check-your-mail message. -/
def request_email (email : String) (db : DB) : PyOutcome String :=
  match get_user_by_email db email with
  | none => .httpExc 400 "Verification error"
  | some user =>
    if user.confirmed then .ok "Ваша електронна пошта вже підтверджена"
    else .ok "Перевірте свою електронну пошту для підтвердження"

/-- `POST /request-password-reset` (`src/api/auth.py:258-290`): the same
generic message whether or not the email exists; when it does, an
email-action token `{sub: email, scope: "password_reset"}` is created and
mailed (returned here as the dispatched token). -/
def request_password_reset (email : String) (db : DB) (now : Nat) :
    String × Option Token :=
  match get_user_by_email db email with
  | none => ("Якщо такий email існує, перевірте пошту для інструкцій.", none)
  | some user =>
    ("Якщо такий email існує, перевірте пошту для інструкцій.",
     some (create_email_token user.email (some "password_reset") now))

/-- `POST /reset-password` (`src/api/auth.py:293-334`): decode under the
access secret (JWTError → 400 "Invalid or expired token"); 400 "Invalid
token" when `sub` is falsy (absent or empty) or `scope != "password_reset"`
(the `HTTPException` raised inside the `try` is not caught by the `JWTError`
handler); 400 "User not found" when the subject email names no user;
otherwise overwrite the row's `hashed_password` with
`Hash().get_password_hash(new_password)` (`hashFn`). The route performs no
Redis operation, so the cache is returned untouched. -/
def reset_password (tok : Token) (new_password : String)
    (hashFn : String → String) (db : DB) (cache : Cache) (now : Nat) :
    PyOutcome String × DB × Cache :=
  match jwtDecode tok JWT_SECRET now with
  | none => (.httpExc 400 "Invalid or expired token", db, cache)
  | some payload =>
    if payload.sub = none ∨ payload.sub = some "" ∨
        payload.scope ≠ some "password_reset" then
      (.httpExc 400 "Invalid token", db, cache)
    else
      match payload.sub with
      | none => (.httpExc 400 "Invalid token", db, cache)
      | some email =>
        match get_user_by_email db email with
        | none => (.httpExc 400 "User not found", db, cache)
        | some _ =>
          (.ok "Пароль успішно змінено",
           updateFirst (fun u => u.email == email)
             (fun u => { u with hashed_password := hashFn new_password }) db,
           cache)

/-- `UserService.update_avatar_url` (`src/services/users.py:93-110`,
`src/repository/users.py:99-113`): 404 when the email names no user;
otherwise set the row's `avatar`. -/
def update_avatar_url (email url : String) (db : DB) : PyOutcome User × DB :=
  match get_user_by_email db email with
  | none => (.httpExc 404 "Contact not found", db)
  | some user =>
    (.ok { user with avatar := some url },
     updateFirst (fun u => u.email == email)
       (fun u => { u with avatar := some url }) db)

/-- The operations of the account-lifecycle core acting on persisted state
(spec §4.5 plus the avatar update): each constructor carries the request
data; the opaque function parameters model the salted hash primitive. -/
inductive Op where
  | register (body : UserCreate) (hashFn : String → String) (avatar : Option String)
  | login (username password : String) (check : String → String → Bool) (now : Nat)
  | refresh (tok : Token) (now : Nat)
  | confirmEmail (tok : Token) (now : Nat)
  | requestEmail (email : String)
  | requestPasswordReset (email : String) (now : Nat)
  | resetPassword (tok : Token) (new_password : String) (hashFn : String → String) (now : Nat)
  | updateAvatar (email url : String)

/-- The user-table transition of each lifecycle operation (`/refresh-token`,
`/request_email` and `/request-password-reset` never write the table). -/
def applyOp (op : Op) (db : DB) (cache : Cache) : DB :=
  match op with
  | .register body hashFn avatar => (register_user body hashFn avatar db).2
  | .login username password check now => (login_user username password check db cache now).2.1
  | .refresh _ _ => db
  | .confirmEmail tok now => (confirmed_email_route tok db now).2
  | .requestEmail _ => db
  | .requestPasswordReset _ _ => db
  | .resetPassword tok pw hashFn now => (reset_password tok pw hashFn db cache now).2.1
  | .updateAvatar email url => (update_avatar_url email url db).2

/-- "Once `confirmed` is `true` it stays `true`": every confirmed user of the
pre-state is still present (by id) and confirmed in the post-state. -/
def confirmedMonotone (db db' : DB) : Prop :=
  ∀ u ∈ db, u.confirmed = true → ∃ u' ∈ db', u'.id = u.id ∧ u'.confirmed = true

/-- Equality of all `User` columns except `hashed_password`. -/
def sameExceptPassword (u u' : User) : Prop :=
  u'.id = u.id ∧ u'.username = u.username ∧ u'.email = u.email ∧
  u'.confirmed = u.confirmed ∧ u'.refresh_token = u.refresh_token ∧
  u'.avatar = u.avatar ∧ u'.role = u.role

/-- The HTTP status of an outcome, when it is an `HTTPException`. -/
def statusOf {α : Type} : PyOutcome α → Option Nat
  | .httpExc s _ => some s
  | _ => none

theorem mem_updateFirst_of_mem {p : User → Bool} {f : User → User} {db : DB}
    {u : User} (hu : u ∈ db) :
    ∃ u' ∈ updateFirst p f db, u' = u ∨ u' = f u := by
  induction db with
  | nil => cases hu
  | cons v rest ih =>
    rcases List.mem_cons.mp hu with h | h
    · subst h
      by_cases hp : p u
      · exact ⟨f u, by simp [updateFirst, hp], Or.inr rfl⟩
      · exact ⟨u, by simp [updateFirst, hp], Or.inl rfl⟩
    · by_cases hp : p v
      · exact ⟨u, by simp [updateFirst, hp, h], Or.inl rfl⟩
      · rcases ih h with ⟨u', hmem, hcase⟩
        exact ⟨u', by simp [updateFirst, hp]; exact Or.inr hmem, hcase⟩

theorem find?_updateFirst_mem {p : User → Bool} {f : User → User} {db : DB}
    {u : User} (h : db.find? p = some u) : f u ∈ updateFirst p f db := by
  induction db with
  | nil => simp [List.find?] at h
  | cons v rest ih =>
    by_cases hp : p v
    · rw [List.find?_cons_of_pos _ hp] at h
      cases h
      simp [updateFirst, hp]
    · rw [List.find?_cons_of_neg _ hp] at h
      simp only [updateFirst, if_neg hp]
      exact List.mem_cons_of_mem _ (ih h)

theorem updateFirst_forall₂ {R : User → User → Prop} {p : User → Bool}
    {f : User → User} (hrefl : ∀ u, R u u) (hf : ∀ u, R u (f u)) :
    ∀ db : DB, List.Forall₂ R db (updateFirst p f db)
  | [] => List.Forall₂.nil
  | u :: rest => by
    by_cases hp : p u
    · simpa [updateFirst, hp] using
        List.Forall₂.cons (hf u) (List.forall₂_same.mpr (fun x _ => hrefl x))
    · simpa [updateFirst, hp] using
        List.Forall₂.cons (hrefl u) (updateFirst_forall₂ hrefl hf rest)

theorem confirmedMonotone_refl (db : DB) : confirmedMonotone db db :=
  fun u hu hc => ⟨u, hu, rfl, hc⟩

theorem confirmedMonotone_updateFirst {p : User → Bool} {f : User → User}
    (hid : ∀ u, (f u).id = u.id)
    (hconf : ∀ u, u.confirmed = true → (f u).confirmed = true) (db : DB) :
    confirmedMonotone db (updateFirst p f db) := by
  intro u hu hc
  rcases mem_updateFirst_of_mem (p := p) (f := f) hu with ⟨u', hmem, hcase⟩
  rcases hcase with h | h
  · exact ⟨u', hmem, by rw [h], by rw [h]; exact hc⟩
  · exact ⟨u', hmem, by rw [h]; exact hid u, by rw [h]; exact hconf u hc⟩

/-- Fixture: a registered, not yet confirmed user. -/
def alice : User :=
  { id := 1, username := "alice", email := "alice@x.com"
    hashed_password := "$2b$12$alicehash", confirmed := false }

/-- Fixture: a registered, confirmed user. -/
def bob : User :=
  { id := 2, username := "bob", email := "bob@x.com"
    hashed_password := "$2b$12$bobhash", confirmed := true }

/-- Fixture: a registration payload that requests the "admin" role. -/
def adminBody : UserCreate :=
  { username := "mallory", email := "mallory@x.com", password := "pw"
    role := some "admin" }

/-- Fixture: the row `register_user adminBody` persists into an empty table. -/
def malloryCreated : User :=
  { id := 1, username := "mallory", email := "mallory@x.com"
    hashed_password := "$2b$12$h", avatar := none, confirmed := false
    refresh_token := none, role := "admin" }

/-- C1, counterexample: a registration payload carrying `role = "admin"`
passes the duplicate checks against an empty table and is persisted with
role "admin" — the persisted role is not the default "user", so the role is
not independent of the payload. -/
theorem c1_counterexample :
    (register_user adminBody (fun _ => "$2b$12$h") none []).1 =
      PyOutcome.ok malloryCreated ∧ malloryCreated.role = "admin" ∧
    "admin" ≠ "user" := by
  refine ⟨by decide, by decide, by decide⟩

/-- C1, amended: every registration that passes the duplicate checks persists
a user with `confirmed = false` and no stored refresh token, while the
persisted role is the payload's `role` string whenever that is non-empty and
the default "user" only when the payload role is absent or empty. -/
theorem c1_register_defaults (body : UserCreate) (hashFn : String → String)
    (avatar : Option String) (db : DB) (u : User)
    (h : (register_user body hashFn avatar db).1 = .ok u) :
    u.confirmed = false ∧ u.refresh_token = none ∧
    u.role = (match body.role with
              | none => "user"
              | some "" => "user"
              | some r => r) := by
  unfold register_user at h
  split at h
  · exact absurd h (by simp)
  · split at h
    · exact absurd h (by simp)
    · simp only [PyOutcome.ok.injEq] at h
      subst h
      exact ⟨rfl, rfl, rfl⟩

/-- C1 witness: the amended statement instantiated at `adminBody` against an
empty table. -/
theorem c1_register_defaults_witness :
    malloryCreated.confirmed = false ∧ malloryCreated.refresh_token = none ∧
    malloryCreated.role = "admin" :=
  c1_register_defaults adminBody (fun _ => "$2b$12$h") none [] malloryCreated
    (by decide)

/-- C5, counterexample: verifying a password against a string that is not a
recognizable bcrypt hash raises `UnknownHashError` instead of returning
`false` (the repository's `verify_password` adds no exception handling
around passlib's `CryptContext.verify`). -/
theorem c5_counterexample :
    verify_password (fun _ _ => false) "secret" "not-a-hash" =
      .unknownHashError ∧
    verify_password (fun _ _ => false) "secret" "not-a-hash" ≠
      .result false := by
  refine ⟨by decide, by decide⟩

/-- C5, amended: for a recognizable bcrypt hash `verify_password` returns the
boolean bcrypt comparison and never raises; on a malformed (unidentifiable)
hash it raises `UnknownHashError` rather than returning `false`. -/
theorem c5_verify_malformed (check : String → String → Bool)
    (plain hashed : String) :
    (isBcryptHash hashed = true →
      verify_password check plain hashed = .result (check plain hashed)) ∧
    (isBcryptHash hashed = false →
      verify_password check plain hashed = .unknownHashError) := by
  unfold verify_password cryptContextVerify
  constructor
  · intro h
    simp [h]
  · intro h
    simp [h]

/-- C5 witness: the amended statement at a well-formed and at a malformed
hash string. -/
theorem c5_verify_malformed_witness :
    verify_password (fun _ _ => true) "pw" "$2b$12$salthash" = .result true ∧
    verify_password (fun _ _ => true) "pw" "stored-in-plain" =
      .unknownHashError :=
  ⟨(c5_verify_malformed (fun _ _ => true) "pw" "$2b$12$salthash").1 (by decide),
   (c5_verify_malformed (fun _ _ => true) "pw" "stored-in-plain").2 (by decide)⟩

/-- C7, counterexample: with the unconfirmed user alice registered, the
resend request for her email succeeds with the check-your-mail message while
the same request for an unregistered email fails with 400 "Verification
error" — the two response texts differ, so account existence is observable
from the response. -/
theorem c7_counterexample :
    request_email "alice@x.com" [alice] =
      .ok "Перевірте свою електронну пошту для підтвердження" ∧
    request_email "carol@x.com" [alice] =
      .httpExc 400 "Verification error" ∧
    (PyOutcome.ok "Перевірте свою електронну пошту для підтвердження" :
        PyOutcome String) ≠ .httpExc 400 "Verification error" := by
  refine ⟨by decide, by decide, by decide⟩

/-- C7, amended: the resend response reveals account existence: an email
that names no user fails with 400 "Verification error", while an existing
user's request succeeds (with the already-confirmed message when confirmed,
the check-your-mail message otherwise). -/
theorem c7_request_email_responses (email : String) (db : DB) :
    (get_user_by_email db email = none →
      request_email email db = .httpExc 400 "Verification error") ∧
    (∀ u, get_user_by_email db email = some u → u.confirmed = false →
      request_email email db =
        .ok "Перевірте свою електронну пошту для підтвердження") ∧
    (∀ u, get_user_by_email db email = some u → u.confirmed = true →
      request_email email db =
        .ok "Ваша електронна пошта вже підтверджена") := by
  refine ⟨fun h => by simp [request_email, h],
    fun u h hc => by simp [request_email, h, hc],
    fun u h hc => by simp [request_email, h, hc]⟩

/-- C7 witness: the amended statement at alice's table for a registered and
an unregistered email. -/
theorem c7_request_email_responses_witness :
    request_email "carol@x.com" [alice] =
      .httpExc 400 "Verification error" ∧
    request_email "alice@x.com" [alice] =
      .ok "Перевірте свою електронну пошту для підтвердження" :=
  ⟨(c7_request_email_responses "carol@x.com" [alice]).1 (by decide),
   (c7_request_email_responses "alice@x.com" [alice]).2.1 alice (by decide) (by decide)⟩

/-- C6, counterexample: a malformed confirmation token is rejected with
HTTP 422 Unprocessable Entity (propagated from `get_email_from_token`), not
with BadRequest 400 as the claim states. -/
theorem c6_counterexample :
    statusOf (confirmed_email_route (.malformed "garbage") [alice] 0).1 =
      some 422 ∧
    statusOf (confirmed_email_route (.malformed "garbage") [alice] 0).1 ≠
      some 400 := by
  refine ⟨by decide, by decide⟩

/-- C6, amended: Confirm email fails with 422 Unprocessable Entity when the
token is invalid, with BadRequest 400 when the token decodes but carries no
subject or the subject names no user; when the user is already confirmed it
succeeds as a no-op leaving the table unchanged; otherwise it sets the
user's confirmed flag to true. -/
theorem c6_confirm_email (tok : Token) (db : DB) (now : Nat) :
    (jwtDecode tok JWT_SECRET now = none →
      confirmed_email_route tok db now =
        (.httpExc 422 "Неправильний токен для перевірки електронної пошти", db)) ∧
    (∀ payload, jwtDecode tok JWT_SECRET now = some payload →
      payload.sub = none →
      confirmed_email_route tok db now =
        (.httpExc 400 "Invalid or expired token", db)) ∧
    (∀ payload email, jwtDecode tok JWT_SECRET now = some payload →
      payload.sub = some email → get_user_by_email db email = none →
      confirmed_email_route tok db now =
        (.httpExc 400 "Verification error", db)) ∧
    (∀ payload email u, jwtDecode tok JWT_SECRET now = some payload →
      payload.sub = some email → get_user_by_email db email = some u →
      u.confirmed = true →
      confirmed_email_route tok db now =
        (.ok "Ваша електронна пошта вже підтверджена", db)) ∧
    (∀ payload email u, jwtDecode tok JWT_SECRET now = some payload →
      payload.sub = some email → get_user_by_email db email = some u →
      u.confirmed = false →
      confirmed_email_route tok db now =
        (.ok "Електронну пошту підтверджено", repo_confirmed_email db email) ∧
      ∃ u' ∈ repo_confirmed_email db email, u'.id = u.id ∧
        u'.confirmed = true) := by
  refine ⟨fun h => ?_, fun payload hdec hsub => ?_,
    fun payload email hdec hsub hfind => ?_,
    fun payload email u hdec hsub hfind hc => ?_,
    fun payload email u hdec hsub hfind hc => ⟨?_, ?_⟩⟩
  · simp [confirmed_email_route, get_email_from_token, h]
  · simp [confirmed_email_route, get_email_from_token, hdec, hsub]
  · simp [confirmed_email_route, get_email_from_token, hdec, hsub, hfind]
  · simp [confirmed_email_route, get_email_from_token, hdec, hsub, hfind, hc]
  · simp [confirmed_email_route, get_email_from_token, hdec, hsub, hfind, hc]
  · exact ⟨{ u with confirmed := true }, find?_updateFirst_mem hfind, rfl, rfl⟩

/-- C6 witness: the amended statement at the already-confirmed user bob,
exercising the no-op branch. -/
theorem c6_confirm_email_witness :
    confirmed_email_route
        (.signed JWT_SECRET { sub := some "bob@x.com", exp := some 10 })
        [bob] 0 =
      (.ok "Ваша електронна пошта вже підтверджена", [bob]) :=
  (c6_confirm_email
      (.signed JWT_SECRET { sub := some "bob@x.com", exp := some 10 })
      [bob] 0).2.2.2.1 { sub := some "bob@x.com", exp := some 10 }
    "bob@x.com" bob (by decide) (by decide) (by decide) (by decide)

/-- Fixture: a valid access token for alice. -/
def aliceToken : Token :=
  .signed JWT_SECRET { sub := some "alice", exp := some 100 }

/-- Fixture: alice's snapshot as cached at login. -/
def aliceSnap : UserData :=
  { id := "1", username := "alice", email := "alice@x.com"
    confirmed := false, role := "user" }

/-- C2 (confirmed): for a token whose decode under the access secret yields a
payload with a present subject — a cache hit whose snapshot role is a valid
role string is returned deserialized (role coerced to the enum) with no
persistence read and no cache write; a miss with the user absent fails 401
Unauthorized after the persistence read; a miss with the user present
returns the projected identity and writes the projection to the cache with
a 3600-second (1-hour) TTL. -/
theorem c2_identity_resolution (tok : Token) (cache : Cache) (db : DB)
    (now : Nat) (payload : Claims) (username : String)
    (hdec : jwtDecode tok JWT_SECRET now = some payload)
    (hsub : payload.sub = some username) :
    (∀ ud r, cacheGet cache ("user:" ++ username) = some ud →
      UserRole.ofString? ud.role = some r →
      get_current_user tok cache db now =
        ⟨.ok { id := ud.id, username := ud.username, email := ud.email
               confirmed := ud.confirmed, role := .enum r }, false, none⟩) ∧
    (cacheGet cache ("user:" ++ username) = none →
      get_user_by_username db username = none →
      get_current_user tok cache db now =
        ⟨.httpExc 401 "Could not validate credentials", true, none⟩) ∧
    (∀ user, cacheGet cache ("user:" ++ username) = none →
      get_user_by_username db username = some user →
      get_current_user tok cache db now =
        ⟨.ok { id := toString user.id, username := user.username
               email := user.email, confirmed := user.confirmed
               role := .str user.role },
         true, some ("user:" ++ username, project user, 3600)⟩) := by
  refine ⟨fun ud r hc hr => ?_, fun hc hu => ?_, fun user hc hu => ?_⟩
  · simp [get_current_user, hdec, hsub, hc, hr]
  · simp [get_current_user, hdec, hsub, hc, hu]
  · simp [get_current_user, hdec, hsub, hc, hu, project]

/-- C2 witness: resolution of alice's token against a cache hit (no DB read)
and against an empty cache with alice in persistence (DB read plus cache
write with TTL 3600). -/
theorem c2_identity_resolution_witness :
    get_current_user aliceToken [("user:alice", aliceSnap, 3600)] [] 0 =
      ⟨.ok { id := "1", username := "alice", email := "alice@x.com"
             confirmed := false, role := .enum .user }, false, none⟩ ∧
    get_current_user aliceToken [] [alice] 0 =
      ⟨.ok { id := "1", username := "alice", email := "alice@x.com"
             confirmed := false, role := .str "user" },
       true, some ("user:alice", project alice, 3600)⟩ :=
  ⟨(c2_identity_resolution aliceToken [("user:alice", aliceSnap, 3600)] [] 0
      { sub := some "alice", exp := some 100 } "alice" (by decide) rfl).1
      aliceSnap .user (by decide) (by decide),
   (c2_identity_resolution aliceToken [] [alice] 0
      { sub := some "alice", exp := some 100 } "alice" (by decide) rfl).2.2
      alice (by decide) (by decide)⟩

/-- Fixture: the refresh token issued to bob at time 0. -/
def bobRefresh : Token := create_refresh_token "bob" 0

/-- C3 (confirmed): the refresh operation succeeds only when the presented
token is well-signed under the refresh secret, unexpired, carries
`token_type = "refresh"` and a subject, and some user row matches both the
subject and the stored `refresh_token`; on success the response is a fresh
access token together with the very same refresh token. A well-signed,
unexpired refresh token that fails the stored-value match fails with 401
Unauthorized. -/
theorem c3_refresh_flow (tok : Token) (db : DB) (now : Nat) :
    (∀ resp, new_token tok db now = .ok resp →
      ∃ c username u, tok = .signed JWT_REFRESH_SECRET c ∧
        claimsLive c now = true ∧ c.token_type = some "refresh" ∧
        c.sub = some username ∧
        db.find? (fun v => v.username == username &&
          v.refresh_token == some tok) = some u ∧
        resp = ⟨create_access_token u.username now, tok, "bearer"⟩) ∧
    (∀ c username, tok = .signed JWT_REFRESH_SECRET c →
      claimsLive c now = true → c.sub = some username →
      c.token_type = some "refresh" →
      db.find? (fun v => v.username == username &&
        v.refresh_token == some tok) = none →
      new_token tok db now = .httpExc 401 "Invalid or expired refresh token") := by
  constructor
  · intro resp h
    unfold new_token verify_refresh_token at h
    cases tok with
    | malformed raw => simp [jwtDecode] at h
    | signed secret c =>
      by_cases hcond : secret = JWT_REFRESH_SECRET ∧ claimsLive c now
      · rw [jwtDecode, if_pos hcond] at h
        obtain ⟨hsec, hlive⟩ := hcond
        subst hsec
        dsimp only at h
        cases hcsub : c.sub with
        | none => rw [hcsub] at h; simp at h
        | some username =>
          rw [hcsub] at h
          dsimp only at h
          by_cases htt : c.token_type = some "refresh"
          · rw [if_neg (by simp [htt])] at h
            cases hfind : List.find? (fun v => v.username == username &&
                v.refresh_token == some (Token.signed JWT_REFRESH_SECRET c)) db with
            | none => rw [hfind] at h; simp at h
            | some u =>
              rw [hfind] at h
              dsimp only at h
              simp only [PyOutcome.ok.injEq] at h
              exact ⟨c, username, u, rfl, hlive, htt, hcsub, hfind, h.symm⟩
          · rw [if_pos (by simp [htt])] at h
            simp at h
      · rw [jwtDecode, if_neg hcond] at h
        simp at h
  · intro c username htok hlive hsub htt hfind
    subst htok
    simp [new_token, verify_refresh_token, jwtDecode, hlive, hsub, htt, hfind]

/-- C3 witness: bob's well-signed, unexpired refresh token presented while
the stored `refresh_token` of his row is empty is rejected with 401. -/
theorem c3_refresh_flow_witness :
    new_token bobRefresh [bob] 5 =
      .httpExc 401 "Invalid or expired refresh token" :=
  (c3_refresh_flow bobRefresh [bob] 5).2
    { sub := some "bob", token_type := some "refresh", exp := some 604800 }
    "bob" (by decide) (by decide) (by decide) (by decide) (by decide)

/-- C4 (confirmed): Reset password fails with BadRequest 400 when the token
does not decode (bad signature or expired), when the scope claim is absent
or differs from "password_reset" even though the token is validly signed
and unexpired, and when the subject email names no user; the stored table is
rewritten — the subject row's password hash overwritten — only when the
operation succeeds, and success entails that every check passed. -/
theorem c4_reset_password_checks (tok : Token) (pw : String)
    (hashFn : String → String) (db : DB) (cache : Cache) (now : Nat) :
    (jwtDecode tok JWT_SECRET now = none →
      reset_password tok pw hashFn db cache now =
        (.httpExc 400 "Invalid or expired token", db, cache)) ∧
    (∀ payload, jwtDecode tok JWT_SECRET now = some payload →
      payload.scope ≠ some "password_reset" →
      reset_password tok pw hashFn db cache now =
        (.httpExc 400 "Invalid token", db, cache)) ∧
    (∀ payload email, jwtDecode tok JWT_SECRET now = some payload →
      payload.sub = some email → email ≠ "" →
      payload.scope = some "password_reset" →
      get_user_by_email db email = none →
      reset_password tok pw hashFn db cache now =
        (.httpExc 400 "User not found", db, cache)) ∧
    (∀ msg db' cache',
      reset_password tok pw hashFn db cache now = (.ok msg, db', cache') →
      ∃ payload email u, jwtDecode tok JWT_SECRET now = some payload ∧
        payload.sub = some email ∧ payload.scope = some "password_reset" ∧
        get_user_by_email db email = some u ∧
        db' = updateFirst (fun v => v.email == email)
          (fun v => { v with hashed_password := hashFn pw }) db) := by
  refine ⟨fun h => ?_, fun payload hdec hscope => ?_,
    fun payload email hdec hsub hne hscope hfind => ?_,
    fun msg db' cache' h => ?_⟩
  · simp [reset_password, h]
  · simp [reset_password, hdec, hscope]
  · simp [reset_password, hdec, hsub, hne, hscope, hfind]
  · unfold reset_password at h
    cases hdec : jwtDecode tok JWT_SECRET now with
    | none => rw [hdec] at h; simp at h
    | some payload =>
      rw [hdec] at h
      dsimp only at h
      by_cases hbad : payload.sub = none ∨ payload.sub = some "" ∨
          payload.scope ≠ some "password_reset"
      · rw [if_pos hbad] at h; simp at h
      · rw [if_neg hbad] at h
        push_neg at hbad
        obtain ⟨hne, _, hscope⟩ := hbad
        cases hcsub : payload.sub with
        | none => exact absurd hcsub hne
        | some email =>
          rw [hcsub] at h
          dsimp only at h
          cases hfind : get_user_by_email db email with
          | none => rw [hfind] at h; simp at h
          | some u =>
            rw [hfind] at h
            dsimp only at h
            simp only [Prod.mk.injEq, PyOutcome.ok.injEq] at h
            exact ⟨payload, email, u, rfl, hcsub, hscope, hfind, h.2.1.symm⟩

/-- C4 witness: a validly signed, unexpired email-action token without a
scope claim is rejected with 400 "Invalid token" and the table and cache are
untouched. -/
theorem c4_reset_password_checks_witness :
    reset_password (create_email_token "alice@x.com" none 0) "npw"
        (fun _ => "$2b$12$new") [alice] [] 5 =
      (.httpExc 400 "Invalid token", [alice], []) :=
  (c4_reset_password_checks (create_email_token "alice@x.com" none 0) "npw"
      (fun _ => "$2b$12$new") [alice] [] 5).2.1
    { sub := some "alice@x.com", scope := none, iat := some 0
      exp := some 604800 } (by decide) (by decide)

/-- C9 (confirmed): a successful password reset changes nothing but the
password hash — every row of the resulting table agrees with the original
on id, username, email, confirmed, refresh_token, avatar and role, and the
Session Cache (alice's entry included) is returned exactly as it was, so
outstanding refresh tokens and cached snapshots stay valid. -/
theorem c9_reset_password_frame (tok : Token) (pw : String)
    (hashFn : String → String) (db : DB) (cache : Cache) (now : Nat)
    (msg : String) (db' : DB) (cache' : Cache)
    (h : reset_password tok pw hashFn db cache now = (.ok msg, db', cache')) :
    cache' = cache ∧ List.Forall₂ sameExceptPassword db db' := by
  unfold reset_password at h
  cases hdec : jwtDecode tok JWT_SECRET now with
  | none => rw [hdec] at h; simp at h
  | some payload =>
    rw [hdec] at h
    dsimp only at h
    by_cases hbad : payload.sub = none ∨ payload.sub = some "" ∨
        payload.scope ≠ some "password_reset"
    · rw [if_pos hbad] at h; simp at h
    · rw [if_neg hbad] at h
      cases hcsub : payload.sub with
      | none => rw [hcsub] at h; simp at h
      | some email =>
        rw [hcsub] at h
        dsimp only at h
        cases hfind : get_user_by_email db email with
        | none => rw [hfind] at h; simp at h
        | some u =>
          rw [hfind] at h
          dsimp only at h
          simp only [Prod.mk.injEq, PyOutcome.ok.injEq] at h
          refine ⟨h.2.2.symm, ?_⟩
          rw [← h.2.1]
          exact updateFirst_forall₂
            (fun v => ⟨rfl, rfl, rfl, rfl, rfl, rfl, rfl⟩)
            (fun v => ⟨rfl, rfl, rfl, rfl, rfl, rfl, rfl⟩) db

/-- Fixture: the password-reset token dispatched for alice at time 0. -/
def aliceResetToken : Token :=
  create_email_token "alice@x.com" (some "password_reset") 0

/-- C9 witness: resetting alice's password leaves the cache untouched and
changes only her `hashed_password` column. -/
theorem c9_reset_password_frame_witness :
    ([] : Cache) = ([] : Cache) ∧
    List.Forall₂ sameExceptPassword [alice]
      [{ alice with hashed_password := "$2b$12$new" }] :=
  c9_reset_password_frame aliceResetToken "npw" (fun _ => "$2b$12$new")
    [alice] [] 5 "Пароль успішно змінено"
    [{ alice with hashed_password := "$2b$12$new" }] [] (by decide)

/-- C10 (confirmed): any unexpired token signed with the access secret whose
`sub` is the email of an existing unconfirmed user makes Confirm email
succeed and set `confirmed = true`, whatever its `scope` claim is —
confirmation never inspects `scope`, so a password-reset token for that
email also confirms it. -/
theorem c10_confirm_ignores_scope (c : Claims) (db : DB) (now : Nat)
    (email : String) (u : User)
    (hlive : claimsLive c now = true) (hsub : c.sub = some email)
    (hfind : get_user_by_email db email = some u)
    (hunconf : u.confirmed = false) :
    (confirmed_email_route (.signed JWT_SECRET c) db now).1 =
      .ok "Електронну пошту підтверджено" ∧
    ∃ u' ∈ (confirmed_email_route (.signed JWT_SECRET c) db now).2,
      u'.id = u.id ∧ u'.confirmed = true := by
  have hroute : confirmed_email_route (.signed JWT_SECRET c) db now =
      (.ok "Електронну пошту підтверджено", repo_confirmed_email db email) := by
    simp [confirmed_email_route, get_email_from_token, jwtDecode, hlive, hsub,
      hfind, hunconf]
  rw [hroute]
  exact ⟨rfl,
    ⟨{ u with confirmed := true }, find?_updateFirst_mem hfind, rfl, rfl⟩⟩

/-- C10 witness: the exact reset token that `request_password_reset`
dispatches for alice (scope "password_reset") also confirms alice's email
when presented to the confirmation endpoint. -/
theorem c10_confirm_ignores_scope_witness :
    (request_password_reset "alice@x.com" [alice] 0).2 =
      some aliceResetToken ∧
    (confirmed_email_route aliceResetToken [alice] 0).1 =
      .ok "Електронну пошту підтверджено" ∧
    ∃ u' ∈ (confirmed_email_route aliceResetToken [alice] 0).2,
      u'.id = alice.id ∧ u'.confirmed = true := by
  have h := c10_confirm_ignores_scope
    { sub := some "alice@x.com", scope := some "password_reset"
      iat := some 0, exp := some (0 + 7 * 86400) } [alice] 0
    "alice@x.com" alice (by decide) rfl (by decide) (by decide)
  exact ⟨by decide, h.1, h.2⟩

/-- C8 (confirmed): across every lifecycle operation — registration, login,
refresh, email confirmation, resend request, password-reset request,
password reset, avatar update — a user whose `confirmed` flag is true before
the operation is still present (same id) and confirmed after it, and a
registration that passes the duplicate checks creates its user with
`confirmed = false`. -/
theorem c8_confirmed_monotone (op : Op) (db : DB) (cache : Cache) :
    confirmedMonotone db (applyOp op db cache) ∧
    (∀ body hashFn avatar u,
      (register_user body hashFn avatar db).1 = .ok u →
      u.confirmed = false) := by
  constructor
  · cases op with
    | register body hashFn avatar =>
      simp only [applyOp]
      unfold register_user
      split
      · exact confirmedMonotone_refl db
      · split
        · exact confirmedMonotone_refl db
        · exact fun u hu hc => ⟨u, List.mem_append_left _ hu, rfl, hc⟩
    | login username password check now =>
      simp only [applyOp]
      unfold login_user
      cases hget : get_user_by_username db username with
      | none => exact confirmedMonotone_refl db
      | some user =>
        dsimp only
        split
        · exact confirmedMonotone_refl db
        · split
          · exact confirmedMonotone_refl db
          · apply confirmedMonotone_updateFirst
            · exact fun v => rfl
            · exact fun v hc => hc
    | refresh tok now => exact confirmedMonotone_refl db
    | confirmEmail tok now =>
      simp only [applyOp]
      unfold confirmed_email_route
      cases hget : get_email_from_token tok now with
      | ok osub =>
        cases osub with
        | none => exact confirmedMonotone_refl db
        | some email =>
          dsimp only
          cases hfind : get_user_by_email db email with
          | none => exact confirmedMonotone_refl db
          | some user =>
            dsimp only
            split
            · exact confirmedMonotone_refl db
            · apply confirmedMonotone_updateFirst
              · exact fun v => rfl
              · exact fun v _ => rfl
      | httpExc s d => exact confirmedMonotone_refl db
      | pyError m => exact confirmedMonotone_refl db
    | requestEmail email => exact confirmedMonotone_refl db
    | requestPasswordReset email now => exact confirmedMonotone_refl db
    | resetPassword tok pw hashFn now =>
      simp only [applyOp]
      unfold reset_password
      cases hdec : jwtDecode tok JWT_SECRET now with
      | none => exact confirmedMonotone_refl db
      | some payload =>
        dsimp only
        split
        · exact confirmedMonotone_refl db
        · cases hcsub : payload.sub with
          | none => exact confirmedMonotone_refl db
          | some email =>
            dsimp only
            cases hfind : get_user_by_email db email with
            | none => exact confirmedMonotone_refl db
            | some u =>
              apply confirmedMonotone_updateFirst
              · exact fun v => rfl
              · exact fun v hc => hc
    | updateAvatar email url =>
      simp only [applyOp]
      unfold update_avatar_url
      cases hfind : get_user_by_email db email with
      | none => exact confirmedMonotone_refl db
      | some user =>
        apply confirmedMonotone_updateFirst
        · exact fun v => rfl
        · exact fun v hc => hc
  · intro body hashFn avatar u h
    unfold register_user at h
    split at h
    · exact absurd h (by simp)
    · split at h
      · exact absurd h (by simp)
      · simp only [PyOutcome.ok.injEq] at h
        subst h
        rfl

/-- C8 witness: the already-confirmed bob stays confirmed through an avatar
update, and a registration into bob's table creates an unconfirmed user. -/
theorem c8_confirmed_monotone_witness :
    (∃ u' ∈ applyOp (.updateAvatar "bob@x.com" "http://avatar") [bob] [],
      u'.id = bob.id ∧ u'.confirmed = true) ∧
    ({ id := 3, username := "mallory", email := "mallory@x.com"
       hashed_password := "$2b$12$h", avatar := none, confirmed := false
       refresh_token := none, role := "admin" } : User).confirmed = false :=
  ⟨(c8_confirmed_monotone (.updateAvatar "bob@x.com" "http://avatar")
      [bob] []).1 bob (by decide) rfl,
   (c8_confirmed_monotone (.updateAvatar "bob@x.com" "http://avatar")
      [bob] []).2 adminBody (fun _ => "$2b$12$h") none _ (by decide)⟩

end HW12
